import Mathlib

/-!
Verification of the Seedr Stremio addon's identifier-resolution and
link-caching core, as implemented in `src/api/index.py` (the current,
KV-first variant) and `src/app.py` (the earlier variant without a cache).

The Python helpers are embedded as executable Lean functions over
`List Char` / `String`; the stateful route handlers are embedded as
explicit state-passing functions over a system state that records the
key-value store's contents and a log of every collaborator call
(remote listing, remote link fetch, metadata lookup, cache
reads/writes).  Remote collaborators are supplied as an environment of
`Except`-valued functions, so that a failing remote call propagates
exactly like a Python exception up to the handler's `try/except`.

Strings are modelled at the ASCII level: `str.lower` is embedded as
ASCII lowercasing, which agrees with Python on every ASCII input (all
inputs appearing in the claims).
-/

namespace Seedr

/-- ASCII lowercasing, the embedding of Python's `str.lower` on ASCII text:
maps `A`..`Z` (codes 65..90) to `a`..`z` and keeps every other character. -/
def asciiLower (c : Char) : Char :=
  if 65 ≤ c.toNat ∧ c.toNat ≤ 90 then Char.ofNat (c.toNat + 32) else c

/-- Whether a character belongs to the class `[a-z0-9]` of the regex in
`normalize` (`src/api/index.py` line 48). -/
def isLowerAlnum (c : Char) : Bool :=
  (97 ≤ c.toNat && c.toNat ≤ 122) || (48 ≤ c.toNat && c.toNat ≤ 57)

/-- Embedding of `normalize` (`src/api/index.py` lines 47-48, identical in
`src/app.py` lines 77-78): `re.sub(r"[^a-z0-9]", "", text.lower())`. -/
def normalize (s : String) : String :=
  String.mk ((s.data.map asciiLower).filter isLowerAlnum)

/-- Case-sensitive "starts with" on character lists (Python's `str.startswith`
and the anchor step of substring search). -/
def startsWithC : List Char → List Char → Bool
  | _, [] => true
  | [], _ :: _ => false
  | h :: hs, n :: ns => (h == n) && startsWithC hs ns

/-- Case-sensitive substring test on character lists, the embedding of
Python's `needle in hay` for strings. -/
def containsC : List Char → List Char → Bool
  | [], needle => needle.isEmpty
  | h :: t, needle => startsWithC (h :: t) needle || containsC t needle

/-- Python's `needle in hay` on strings. -/
def containsS (hay needle : String) : Bool :=
  containsC hay.data needle.data

/-- Python's `hay.startswith(needle)` on strings. -/
def startsWithS (hay needle : String) : Bool :=
  startsWithC hay.data needle.data

/-- Whether a character is an ASCII digit (`\d` over ASCII input). -/
def isDigitCh (c : Char) : Bool :=
  48 ≤ c.toNat && c.toNat ≤ 57

/-- Whether four characters match the regex `(19|20)\d{2}`. -/
def yearQuad (c1 c2 c3 c4 : Char) : Bool :=
  ((c1 == '1' && c2 == '9') || (c1 == '2' && c2 == '0')) && isDigitCh c3 && isDigitCh c4

/-- Leftmost match of `re.search(r"(19|20)\d{2}", s)`: the first
four-character run matching the year pattern, scanning left to right. -/
def findYear : List Char → Option String
  | c1 :: c2 :: c3 :: c4 :: rest =>
    if yearQuad c1 c2 c3 c4 then some (String.mk [c1, c2, c3, c4])
    else findYear (c2 :: c3 :: c4 :: rest)
  | _ => none

/-- The alternatives of the extension group `(mkv|mp4|avi|mov|webm|wmv)`,
as lowercase character lists. -/
def vidExts : List (List Char) :=
  ["mkv", "mp4", "avi", "mov", "webm", "wmv"].map String.data

/-- Case-insensitive "starts with" against an already-lowercase pattern,
modelling `re.I` matching. -/
def startsWithCI (hay pat : List Char) : Bool :=
  startsWithC (hay.map asciiLower) pat

/-- Whether the regex `\.(mkv|mp4|avi|mov|webm|wmv)` (with `re.I`) matches at
the head of the list: a dot followed by one of the extension alternatives,
case-insensitively.  Note the pattern is unanchored, so it also fires inside
a name, e.g. at `.Movie` via the `mov` alternative. -/
def extAt : List Char → Bool
  | c :: rest => c == '.' && vidExts.any (fun e => startsWithCI rest e)
  | [] => false

/-- Embedding of `re.sub(r"\.(mkv|mp4|avi|mov|webm|wmv).*", "", s, flags=re.I)`
for newline-free filenames: the match starts at the leftmost position where
`\.(ext)` fires and `.*` greedily consumes the remainder, so everything from
that position on is removed. -/
def stripExt : List Char → List Char
  | [] => []
  | c :: t => if extAt (c :: t) then [] else c :: stripExt t

/-- Embedding of `re.sub(r"(19|20)\d{2}", "", s)`: removes every
non-overlapping leftmost-first match of the year pattern. -/
def stripYears : List Char → List Char
  | c1 :: c2 :: c3 :: c4 :: rest =>
    if yearQuad c1 c2 c3 c4 then stripYears rest
    else c1 :: stripYears (c2 :: c3 :: c4 :: rest)
  | l => l

/-- Python's `.replace(".", " ").replace("_", " ")`. -/
def sepToSpace (l : List Char) : List Char :=
  l.map (fun c => if c == '.' || c == '_' then ' ' else c)

/-- Whether a character is ASCII whitespace, the characters `str.strip`
removes on ASCII input. -/
def isSpaceCh (c : Char) : Bool :=
  c == ' ' || c == '\t' || c == '\n' || c == '\r' || c == '\x0b' || c == '\x0c'

/-- Python's `str.strip()` on ASCII text. -/
def pyStrip (l : List Char) : List Char :=
  ((l.dropWhile isSpaceCh).reverse.dropWhile isSpaceCh).reverse

/-- Embedding of `extract_title_year` (`src/api/index.py` lines 72-80,
identical in `src/app.py` lines 100-108): the year is the first
`(19|20)\d{2}` match in the raw filename (empty string when there is none);
the title is the filename with the leftmost extension match and everything
after it removed, all year matches removed, `.` and `_` turned into spaces,
and surrounding whitespace stripped. -/
def extract_title_year (filename : String) : String × String :=
  (String.mk (pyStrip (sepToSpace (stripYears (stripExt filename.data)))),
   (findYear filename.data).getD "")

/-- The derived catalog identifier of a filename:
`normalize(title + year)` as computed by `catalog` (line 217), by
`get_cached_stream_data` (line 100) and by the opaque-id branch of `stream`
(line 323) in `src/api/index.py`. -/
def fileIdOf (name : String) : String :=
  normalize ((extract_title_year name).1 ++ (extract_title_year name).2)

/-!
`parse_quality` appears in the specification's Filename Parser (§4.2) but no
function of that name exists under `src/`; it is modelled from the spec's
words below.
-/

/-- Modelled from the spec: the priority-ordered quality-tag table of
`parse_quality` (spec §4.2), absent from `src/`.  Each category is a list of
alternatives `(tag, patterns)` in priority order — resolution
`4K/2160p > 1080p > 720p`, source `WEB-DL > WEBRip > BluRay/BRRip > HDRip`,
video codec `HEVC/x265 > x264 > AVC`, audio codec `DDP/EAC3 > AAC > DTS`,
channels `5.1` vs `7.1`. -/
def qualityTable : List (List (String × List String)) :=
  [ [("4K", ["4k", "2160p"]), ("1080p", ["1080p"]), ("720p", ["720p"])],
    [("WEB-DL", ["web-dl"]), ("WEBRip", ["webrip"]),
     ("BluRay", ["bluray", "brrip"]), ("HDRip", ["hdrip"])],
    [("HEVC", ["hevc", "x265"]), ("x264", ["x264"]), ("AVC", ["avc"])],
    [("DDP", ["ddp", "eac3"]), ("AAC", ["aac"]), ("DTS", ["dts"])],
    [("5.1", ["5.1"]), ("7.1", ["7.1"])] ]

/-- Modelled from the spec: within one category, the tag of the first
alternative (in priority order) one of whose patterns occurs,
case-insensitively, in the filename; `none` when no alternative matches. -/
def pickTag (low : List Char) : List (String × List String) → Option String
  | [] => none
  | alt :: rest =>
    if alt.2.any (fun p => containsC low p.data) then some alt.1
    else pickTag low rest

/-- Modelled from the spec: the at-most-one tag each category contributes for
a filename, in table order. -/
def qualityTags (filename : String) : List String :=
  qualityTable.filterMap (pickTag (filename.data.map asciiLower))

/-- Space-joining of the collected tags. -/
def joinSpace : List String → String
  | [] => ""
  | [t] => t
  | t :: rest => t ++ " " ++ joinSpace rest

/-- Modelled from the spec: `parse_quality(filename)` (spec §4.2, absent from
`src/`) — the concatenation, in table order, of each category's
first-matching tag, or the sentinel `"Unknown"` when no table entry
matches. -/
def parse_quality (filename : String) : String :=
  if qualityTags filename = [] then "Unknown" else joinSpace (qualityTags filename)

/-!
Data model of the resolution pipeline: remote files, cache records, the
key-value store, the collaborator environment, and an explicit-state monad
whose state also logs every collaborator call.
-/

/-- A remote-store file entry, the fields of `seedrcc` file objects the code
reads (`file_id`, `folder_file_id`, `name`, `size`, `play_video`). -/
structure RFile where
  file_id : String
  folder_file_id : String
  name : String
  size : Nat
  play_video : Bool
  deriving DecidableEq, Repr

/-- The record `get_cached_stream_data` serializes into the key-value store
(`src/api/index.py` lines 102-108). -/
structure CacheData where
  url : String
  name : String
  title : String
  year : String
  meta_id : String
  deriving DecidableEq, Repr

/-- One entry of a stream response: `{"name": "Seedr.cc", "title": ...,
"url": ..., "behaviorHints": {"notWebReady": False}}`. -/
structure StreamEntry where
  name : String
  title : String
  url : String
  notWebReady : Bool
  deriving DecidableEq, Repr

/-- One entry of the catalog response (`src/api/index.py` lines 219-226). -/
structure MetaEntry where
  id : String
  type : String
  name : String
  year : String
  poster : Option String
  description : String
  deriving DecidableEq, Repr

/-- The body of a `/stream/...` response: the `streams` list plus the
optional `error` field of the KV-first handler's `except` branch. -/
structure StreamResp where
  streams : List StreamEntry
  error : Option String
  deriving DecidableEq, Repr

/-- The dictionary `sync_kv_with_seedr` returns (`src/api/index.py` lines
131-135): the number of scanned keys, the list of deleted keys, and the
count of keys that remain. -/
structure SyncResult where
  total_keys : Nat
  deleted : List String
  remaining : Nat
  deriving DecidableEq, Repr

/-- A collaborator call, recorded in the state's log: a remote folder
listing (one full `walk_files` traversal), a remote single-file link fetch,
a metadata lookup, or a key-value store operation. -/
inductive Op where
  | listContents : Op
  | fetchFile : String → Op
  | metaFetch : String → Op
  | kvGet : String → Op
  | kvSet : String → Op
  | kvDel : String → Op
  | kvKeys : Op
  deriving DecidableEq, Repr

/-- The key-value store's contents: keys paired with the (parsed) cached
records.  At most one entry per key is maintained by `storeSet`. -/
def Store := List (String × CacheData)
  deriving DecidableEq, Repr

/-- The system state threaded through a request: the store plus the log of
collaborator calls made so far. -/
structure SysState where
  store : Store
  log : List Op
  deriving DecidableEq, Repr

/-- `redis.get(key)` against the modelled store. -/
def storeGet (st : Store) (k : String) : Option CacheData :=
  (st.find? (fun p => p.1 == k)).map Prod.snd

/-- `redis.set(key, value)`: replaces any entry under `key` and records the
new value (the TTL argument is not modelled; no claim concerns expiry). -/
def storeSet (st : Store) (k : String) (d : CacheData) : Store :=
  st.filter (fun p => !(p.1 == k)) ++ [(k, d)]

/-- `redis.delete(key)`. -/
def storeDel (st : Store) (k : String) : Store :=
  st.filter (fun p => !(p.1 == k))

/-- `redis.keys("seedr:stream:*")`: the keys under the resolution-cache
namespace, in store order. -/
def storeKeys (st : Store) : List String :=
  (st.filter (fun p => startsWithS p.1 "seedr:stream:")).map Prod.fst

/-- Appends one collaborator call to the log. -/
def addLog (s : SysState) (o : Op) : SysState :=
  { s with log := s.log ++ [o] }

/-- How many remote single-file link fetches a log records. -/
def countFetch (l : List Op) : Nat :=
  (l.filter (fun o => match o with | .fetchFile _ => true | _ => false)).length

/-- The outcome of a stateful computation: a value or a raised exception
message, in both cases together with the state at that point (store writes
made before an exception persist, as they do against a real remote store). -/
inductive Res (α : Type) where
  | ok : α → SysState → Res α
  | err : String → SysState → Res α
  deriving DecidableEq, Repr

/-- Explicit-state computations over `SysState` with Python-exception-style
propagation. -/
def M (α : Type) : Type := SysState → Res α

/-- Returning a value without touching the state. -/
def M.pure (a : α) : M α := fun s => .ok a s

/-- Sequencing: an exception short-circuits the continuation. -/
def M.bind (x : M α) (f : α → M β) : M β := fun s =>
  match x s with
  | .ok a s1 => f a s1
  | .err e s1 => .err e s1

instance : Monad M where
  pure := M.pure
  bind := M.bind

/-- Raising an exception. -/
def M.throw (e : String) : M α := fun s => .err e s

/-- The remote collaborators of one request: whether `SEEDR_DEVICE_CODE` is
set, the outcome of one full `walk_files` traversal (a listing failure aborts
the whole depth-first walk), the single-file link fetch `fetch_file`, and the
Cinemeta metadata lookup `get_movie_title`. -/
structure Env where
  hasDeviceCode : Bool
  walkResult : Except String (List RFile)
  fetchFile : String → Except String String
  getMovieTitle : String → Except String (String × String)

/-- `get_client()`: raises when the device-code environment variable is
missing, otherwise yields the authenticated client (represented by `Unit`;
the remote operations live in `Env`). -/
def getClient (env : Env) : M Unit := fun s =>
  if env.hasDeviceCode then .ok () s
  else .err "SEEDR_DEVICE_CODE environment variable is missing" s

/-- One full `walk_files(client)` traversal, logged as a listing call. -/
def mWalk (env : Env) : M (List RFile) := fun s =>
  match env.walkResult with
  | .ok fs => .ok fs (addLog s .listContents)
  | .error e => .err e (addLog s .listContents)

/-- `client.fetch_file(folder_file_id)`, yielding the playable `url`. -/
def mFetch (env : Env) (ffid : String) : M String := fun s =>
  match env.fetchFile ffid with
  | .ok u => .ok u (addLog s (.fetchFile ffid))
  | .error e => .err e (addLog s (.fetchFile ffid))

/-- `get_movie_title(imdb_id)`, yielding `(title, year)`. -/
def mMeta (env : Env) (imdbId : String) : M (String × String) := fun s =>
  match env.getMovieTitle imdbId with
  | .ok ty => .ok ty (addLog s (.metaFetch imdbId))
  | .error e => .err e (addLog s (.metaFetch imdbId))

/-- `redis.get(key)` as a logged state operation. -/
def mKvGet (k : String) : M (Option CacheData) := fun s =>
  .ok (storeGet s.store k) (addLog s (.kvGet k))

/-- `redis.set(key, value, ex=CACHE_TTL)` as a logged state operation. -/
def mKvSet (k : String) (d : CacheData) : M Unit := fun s =>
  .ok () { store := storeSet s.store k d, log := s.log ++ [.kvSet k] }

/-- `redis.delete(key)` as a logged state operation. -/
def mKvDel (k : String) : M Unit := fun s =>
  .ok () { store := storeDel s.store k, log := s.log ++ [.kvDel k] }

/-- `redis.keys("seedr:stream:*")` as a logged state operation. -/
def mKvKeys : M (List String) := fun s =>
  .ok (storeKeys s.store) (addLog s .kvKeys)

/-- The cache key of a file: `f"seedr:stream:{file.folder_file_id}"`
(`src/api/index.py` line 88). -/
def cacheKeyOf (file : RFile) : String :=
  "seedr:stream:" ++ file.folder_file_id

/-- The record `get_cached_stream_data` persists on a miss
(`src/api/index.py` lines 99-108): the fetched url, the raw name, the parsed
title and year, and the derived `meta_id`. -/
def cacheRecordOf (url : String) (file : RFile) : CacheData :=
  { url := url, name := file.name,
    title := (extract_title_year file.name).1,
    year := (extract_title_year file.name).2,
    meta_id := normalize ((extract_title_year file.name).1 ++ (extract_title_year file.name).2) }

/-- Embedding of `get_cached_stream_data` (`src/api/index.py` lines 87-111):
look the file's record up under `"seedr:stream:" + folder_file_id`; on a hit
return the parsed record without contacting the remote store; on a miss call
`fetch_file` once, build the record, persist it under the key, and return
it. -/
def get_cached_stream_data (env : Env) (file : RFile) : M CacheData := do
  let cached ← mKvGet (cacheKeyOf file)
  match cached with
  | some d => pure d
  | none => do
    let url ← mFetch env file.folder_file_id
    mKvSet (cacheKeyOf file) (cacheRecordOf url file)
    pure (cacheRecordOf url file)

/-- The embedded id of a cache key: `key.split(":")[-1]`, i.e. the longest
colon-free suffix (the whole key when it has no colon). -/
def lastColonSuffix (s : String) : String :=
  String.mk ((s.data.reverse.takeWhile (fun c => !(c == ':'))).reverse)

/-- The deletion pass of `sync_kv_with_seedr` (`src/api/index.py` lines
124-129): every key whose embedded file id is not among the live ids is
deleted and collected, in key order. -/
def syncLoop (liveIds : List String) : List String → M (List String)
  | [] => pure []
  | k :: ks => do
    if liveIds.contains (lastColonSuffix k) then syncLoop liveIds ks
    else do
      mKvDel k
      let rest ← syncLoop liveIds ks
      pure (k :: rest)

/-- Embedding of `sync_kv_with_seedr` (`src/api/index.py` lines 118-135):
walk the remote tree afresh, collect the live `folder_file_id`s, enumerate
the `seedr:stream:*` keys, delete the stale ones, and report the total key
count, the deleted keys and the remaining count. -/
def sync_kv_with_seedr (env : Env) : M SyncResult := do
  let files ← mWalk env
  let seedrIds := files.map (fun f => f.folder_file_id)
  let keys ← mKvKeys
  let deleted ← syncLoop seedrIds keys
  pure { total_keys := keys.length, deleted := deleted,
         remaining := keys.length - deleted.length }

/-- The KV-only catalog-id scan of `stream` (`src/api/index.py` lines
262-278): read every `seedr:stream:*` record and collect an entry for each
whose stored `meta_id` equals the incoming id. -/
def kvLoop (id : String) : List String → M (List StreamEntry)
  | [] => pure []
  | k :: ks => do
    let cached ← mKvGet k
    match cached with
    | none => kvLoop id ks
    | some d => do
      let rest ← kvLoop id ks
      if d.meta_id == id then
        pure ({ name := "Seedr.cc", title := d.name, url := d.url,
                notWebReady := false } :: rest)
      else pure rest

/-- The IMDb-path loop of `stream` in `src/api/index.py` (lines 297-311):
every playable file whose normalized name contains the normalized movie
title is a candidate (title match alone suffices in this variant); each
candidate's link is resolved through the cache. -/
def ttLoop (env : Env) (normTitle : String) : List RFile → M (List StreamEntry)
  | [] => pure []
  | f :: fs => do
    if f.play_video && containsS (normalize f.name) normTitle then
      let d ← get_cached_stream_data env f
      let rest ← ttLoop env normTitle fs
      pure ({ name := "Seedr.cc", title := d.name, url := d.url,
              notWebReady := false } :: rest)
    else ttLoop env normTitle fs

/-- The opaque-id candidate condition of `stream` in `src/api/index.py`
(lines 321-325): with `fname_norm = normalize(name)`,
`(title, year) = extract_title_year(name)` and
`file_id = normalize(title + year)`, a name matches the incoming id when
`file_id == id` or `fname_norm == normalize(id)` or `normalize(id)` occurs
in `fname_norm`. -/
def opaqueCond (id name : String) : Bool :=
  fileIdOf name == id || normalize name == normalize id ||
    containsS (normalize name) (normalize id)

/-- A playable file matching the opaque-id condition, as the loop at
`src/api/index.py` lines 317-325 selects candidates. -/
def opaqueCandidate (id : String) (f : RFile) : Bool :=
  f.play_video && opaqueCond id f.name

/-- The opaque-id loop of `stream` in `src/api/index.py` (lines 314-332). -/
def opaqueLoop (env : Env) (id : String) : List RFile → M (List StreamEntry)
  | [] => pure []
  | f :: fs => do
    if opaqueCandidate id f then
      let d ← get_cached_stream_data env f
      let rest ← opaqueLoop env id fs
      pure ({ name := "Seedr.cc", title := d.name, url := d.url,
              notWebReady := false } :: rest)
    else opaqueLoop env id fs

/-- The `try` body of `stream` in `src/api/index.py` (lines 258-332): for a
non-`tt` id, first scan the cache records for a stored `meta_id` equal to
the id and return those entries when any exist; otherwise open the client,
reconcile the cache against the live tree, and run the IMDb path (for `tt`
ids) or the opaque-id path over a fresh walk. -/
def streamBody (env : Env) (id : String) : M (List StreamEntry) := do
  let streams ←
    if startsWithS id "tt" then pure []
    else do
      let keys ← mKvKeys
      kvLoop id keys
  if streams.isEmpty then do
    getClient env
    let _ ← sync_kv_with_seedr env
    if startsWithS id "tt" then do
      let ty ← mMeta env id
      let files ← mWalk env
      ttLoop env (normalize ty.1) files
    else do
      let files ← mWalk env
      opaqueLoop env id files
  else pure streams

/-- Embedding of the `stream` route handler of `src/api/index.py` (lines
250-337): a non-`"movie"` type returns an empty stream list before the `try`
block; otherwise the body runs and any exception it raises is converted into
`{"streams": [], "error": str(e)}`. -/
def stream (env : Env) (type id : String) (s0 : SysState) : StreamResp × SysState :=
  if type = "movie" then
    match streamBody env id s0 with
    | .ok streams s1 => ({ streams := streams, error := none }, s1)
    | .err e s1 => ({ streams := [], error := some e }, s1)
  else ({ streams := [], error := none }, s0)

/-- The catalog entry `catalog` emits for one playable file
(`src/api/index.py` lines 216-226): id `normalize(title + year)`, display
name `title or f.name`, plus static fields. -/
def catalogEntry (f : RFile) : MetaEntry :=
  let p := extract_title_year f.name
  { id := normalize (p.1 ++ p.2), type := "movie",
    name := if p.1 = "" then f.name else p.1,
    year := p.2, poster := none,
    description := "From your Seedr.cc account" }

/-- Embedding of `catalog` (`src/api/index.py` lines 207-228): one entry per
playable file of a fresh walk. -/
def catalog (files : List RFile) : List MetaEntry :=
  (files.filter (fun f => f.play_video)).map catalogEntry

/-- The candidate condition of `stream` in `src/app.py` (lines 212-218): a
playable file whose normalized name contains the normalized movie title and
whose raw name contains the literal year string. -/
def appCandidate (normTitle movieYear : String) (f : RFile) : Bool :=
  f.play_video && containsS (normalize f.name) normTitle &&
    containsS f.name movieYear

/-- The matching loop of `stream` in `src/app.py` (lines 212-228): each
candidate triggers a direct `fetch_file`; a fetch failure raises out of the
loop, leaving the entries accumulated so far (third component: the raised
message, `none` on a clean pass). -/
def appLoop (env : Env) (normTitle movieYear : String) :
    List RFile → SysState → List StreamEntry × SysState × Option String
  | [], s => ([], s, none)
  | f :: fs, s =>
    if !f.play_video then appLoop env normTitle movieYear fs s
    else if containsS (normalize f.name) normTitle && containsS f.name movieYear then
      match env.fetchFile f.folder_file_id with
      | .ok u =>
        let r := appLoop env normTitle movieYear fs (addLog s (.fetchFile f.folder_file_id))
        ({ name := "Seedr.cc", title := f.name, url := u,
           notWebReady := false } :: r.1, r.2.1, r.2.2)
      | .error e => ([], addLog s (.fetchFile f.folder_file_id), some e)
    else appLoop env normTitle movieYear fs s

/-- Embedding of the `stream` route handler of `src/app.py` (lines 200-233):
a non-`"movie"` type returns an empty list before the `try` block; inside
it, the metadata lookup runs first, then the client opens and the walked
files are matched; `except Exception: pass` swallows any exception and the
entries accumulated so far are returned with no error field. -/
def streamApp (env : Env) (type id : String) (s0 : SysState) : StreamResp × SysState :=
  if type = "movie" then
    match env.getMovieTitle id with
    | .error _ => ({ streams := [], error := none }, addLog s0 (.metaFetch id))
    | .ok ty =>
      let s1 := addLog s0 (.metaFetch id)
      if env.hasDeviceCode then
        match env.walkResult with
        | .error _ => ({ streams := [], error := none }, addLog s1 .listContents)
        | .ok files =>
          let r := appLoop env (normalize ty.1) ty.2 files (addLog s1 .listContents)
          ({ streams := r.1, error := none }, r.2.1)
      else ({ streams := [], error := none }, s1)
  else ({ streams := [], error := none }, s0)

/-- The keys of the resolution-cache namespace whose embedded file id is not
among the live `folder_file_id`s: exactly the keys `sync_kv_with_seedr`
deletes. -/
def stale (files : List RFile) (st : Store) : List String :=
  (storeKeys st).filter
    (fun k => !((files.map (fun f => f.folder_file_id)).contains (lastColonSuffix k)))

/-!
Concrete fixtures used by the witness theorems.
-/

/-- The empty initial state: no cached records, no calls made. -/
def st0 : SysState := { store := [], log := [] }

/-- A playable remote file with the spec's worked filename. -/
def fMatrix : RFile :=
  { file_id := "1", folder_file_id := "11",
    name := "The.Matrix.1999.1080p.mkv", size := 0, play_video := true }

/-- A playable remote file that matches no claim identifier. -/
def fOther : RFile :=
  { file_id := "2", folder_file_id := "22",
    name := "Some.Other.Film.2005.1080p.mkv", size := 0, play_video := true }

/-- A non-playable entry whose name would otherwise match. -/
def fClip : RFile :=
  { file_id := "3", folder_file_id := "33",
    name := "The.Matrix.1999.extras.mkv", size := 0, play_video := false }

/-- An environment where every remote call succeeds. -/
def envT : Env :=
  { hasDeviceCode := true,
    walkResult := .ok [fMatrix, fOther, fClip],
    fetchFile := fun x => .ok ("http://u/" ++ x),
    getMovieTitle := fun _ => .ok ("The Matrix", "1999") }

/-- An environment whose remote listing fails. -/
def envNoList : Env := { envT with walkResult := .error "remote listing failed" }

/-- The record the miss path persists for `fMatrix`. -/
def dM : CacheData := cacheRecordOf "http://u/11" fMatrix

/-- A state already holding `fMatrix`'s record. -/
def stHit : SysState := { store := [("seedr:stream:11", dM)], log := [] }

/-- The spec's reconciliation scenario: cache keys for A, B and C. -/
def stABC : SysState :=
  { store := [("seedr:stream:A", { url := "uA", name := "a", title := "a", year := "", meta_id := "a" }),
              ("seedr:stream:B", { url := "uB", name := "b", title := "b", year := "", meta_id := "b" }),
              ("seedr:stream:C", { url := "uC", name := "c", title := "c", year := "", meta_id := "c" })],
    log := [] }

/-- An environment whose live tree holds exactly the file ids A and B. -/
def envAB : Env :=
  { envT with
    walkResult := .ok
      [{ file_id := "1", folder_file_id := "A", name := "fa.mkv", size := 0, play_video := true },
       { file_id := "2", folder_file_id := "B", name := "fb.mkv", size := 0, play_video := true }] }

/-!
Theorems.  Helper lemmas come first, then one theorem per claim (with its
witness or counterexample where required).
-/

/-- A character already in `[a-z0-9]` is fixed by ASCII lowercasing. -/
theorem asciiLower_fixed (c : Char) (h : isLowerAlnum c = true) : asciiLower c = c := by
  unfold asciiLower
  unfold isLowerAlnum at h
  simp only [Bool.or_eq_true, Bool.and_eq_true, decide_eq_true_eq] at h
  rw [if_neg]
  omega

/-- Every character of `normalize`'s output lies in `[a-z0-9]`. -/
theorem normalize_mem_isLowerAlnum (s : String) (c : Char) (hc : c ∈ (normalize s).data) :
    isLowerAlnum c = true := by
  unfold normalize at hc
  exact (List.mem_filter.mp hc).2

/-- Claim C8: `normalize` is idempotent, and its output contains only
characters of the class `[a-z0-9]` (the code's `re.sub(r"[^a-z0-9]", "",
text.lower())` removes every other character). -/
theorem normalize_idem_charset (s : String) :
    normalize (normalize s) = normalize s ∧ (normalize s).data.all isLowerAlnum = true := by
  constructor
  · unfold normalize
    apply congrArg String.mk
    have hmem : ∀ c ∈ ((s.data.map asciiLower).filter isLowerAlnum), isLowerAlnum c = true :=
      fun c hc => (List.mem_filter.mp hc).2
    have hmap : ((String.mk ((s.data.map asciiLower).filter isLowerAlnum)).data.map asciiLower)
        = (s.data.map asciiLower).filter isLowerAlnum := by
      show ((s.data.map asciiLower).filter isLowerAlnum).map asciiLower
          = (s.data.map asciiLower).filter isLowerAlnum
      calc ((s.data.map asciiLower).filter isLowerAlnum).map asciiLower
          = ((s.data.map asciiLower).filter isLowerAlnum).map id := by
            apply List.map_congr_left
            intro c hc
            exact asciiLower_fixed c (hmem c hc)
        _ = (s.data.map asciiLower).filter isLowerAlnum := List.map_id _
    rw [hmap]
    exact List.filter_eq_self.mpr hmem
  · exact List.all_eq_true.mpr (fun c hc => normalize_mem_isLowerAlnum s c hc)

/-- Claim C8 witness: the properties evaluated at a concrete mixed-case,
punctuated input. -/
theorem normalize_idem_charset_witness :
    normalize (normalize "The.Matrix (1999)!") = normalize "The.Matrix (1999)!" ∧
    (normalize "The.Matrix (1999)!").data.all isLowerAlnum = true :=
  normalize_idem_charset "The.Matrix (1999)!"

/-- Claim C1 counterexample: on the spec's first worked example the code does
not return `("Some Movie", "1999")` — the unanchored extension pattern
matches `.Mov` inside `.Movie` case-insensitively and cuts the title down to
`"Some"`. -/
theorem extract_title_year_spec_example_refuted :
    decide (extract_title_year "Some.Movie.1999.1080p.mkv" = ("Some Movie", "1999")) = false := by
  decide

/-- Claim C1 (amended): `extract_title_year("Some.Movie.1999.1080p.mkv")`
returns `("Some", "1999")` (the `mov` extension alternative fires inside
`.Movie`), and `extract_title_year("NoYearHere.mkv")` returns
`("NoYearHere", "")`; both evaluate totally, raising nothing. -/
theorem extract_title_year_worked_examples :
    extract_title_year "Some.Movie.1999.1080p.mkv" = ("Some", "1999") ∧
    extract_title_year "NoYearHere.mkv" = ("NoYearHere", "") := by
  constructor
  · decide
  · decide

/-- Claim C7 counterexample: the id `"thematrix1999"` is NOT an exact
derived-id match for `The.Matrix.1999.1080p.mkv` — the derived id keeps the
`1080p` token, so it is `"thematrix1080p1999"`. -/
theorem matrix_exact_derived_id_refuted :
    decide (fileIdOf "The.Matrix.1999.1080p.mkv" = "thematrix1999") = false := by
  decide

/-- Claim C7 (amended): the playable file `The.Matrix.1999.1080p.mkv` is
matched by `"thematrix1999"` (via the substring disjunct — its derived id is
`"thematrix1080p1999"`, not `"thematrix1999"`), by `"thematrix"` (substring
match), and by the literal normalized full filename (equality match), but
not by `"matrix2"`. -/
theorem matrix_opaque_matching :
    fileIdOf "The.Matrix.1999.1080p.mkv" = "thematrix1080p1999" ∧
    opaqueCandidate "thematrix1999" fMatrix = true ∧
    opaqueCandidate "thematrix" fMatrix = true ∧
    opaqueCandidate "thematrix19991080pmkv" fMatrix = true ∧
    opaqueCandidate "matrix2" fMatrix = false := by
  refine ⟨by decide, by decide, by decide, by decide, by decide⟩

/-- A tag picked from a category is the tag of one of its alternatives. -/
theorem pickTag_mem (low : List Char) :
    ∀ (cat : List (String × List String)) (t : String),
      pickTag low cat = some t → ∃ alt ∈ cat, alt.1 = t := by
  intro cat
  induction cat with
  | nil => intro t h; simp [pickTag] at h
  | cons alt rest ih =>
    intro t h
    unfold pickTag at h
    by_cases hm : alt.2.any (fun p => containsC low p.data) = true
    · rw [if_pos hm] at h
      exact ⟨alt, List.mem_cons_self .., Option.some.inj h⟩
    · rw [if_neg hm] at h
      obtain ⟨a, ha, hat⟩ := ih t h
      exact ⟨a, List.mem_cons_of_mem _ ha, hat⟩

/-- Every tag the table can emit is a nonempty string. -/
theorem qualityTags_pos (f : String) (t : String) (ht : t ∈ qualityTags f) :
    0 < t.length := by
  obtain ⟨cat, hcat, hpick⟩ := List.mem_filterMap.mp ht
  obtain ⟨alt, halt, rfl⟩ := pickTag_mem _ cat t hpick
  have htable : ∀ cat ∈ qualityTable, ∀ alt ∈ cat, 0 < alt.1.length := by decide
  exact htable cat hcat alt halt

/-- Space-joining nonempty tags yields a nonempty string. -/
theorem joinSpace_pos :
    ∀ ts : List String, ts ≠ [] → (∀ t ∈ ts, 0 < t.length) → 0 < (joinSpace ts).length := by
  intro ts
  induction ts with
  | nil => intro h; exact absurd rfl h
  | cons t rest ih =>
    intro _ hall
    match rest with
    | [] => exact hall t (List.mem_cons_self ..)
    | r :: rs =>
      show 0 < (t ++ " " ++ joinSpace (r :: rs)).length
      have := hall t (List.mem_cons_self ..)
      simp [String.length_append]
      omega

/-- Claim C4 (spec-modelled): `parse_quality` always returns a nonempty
string; it returns the sentinel `"Unknown"` exactly when no table entry
matches; each of the five categories contributes at most one tag (so at most
five tags in all); and on `"Movie.2160p.x265.mkv"` the priority rules emit
exactly `"4K HEVC"` (the `2160p` pattern yields the `4K` tag, `x265` yields
`HEVC`, and `x264` is not emitted), while a filename matching nothing yields
`"Unknown"`. -/
theorem parse_quality_spec (f : String) :
    0 < (parse_quality f).length ∧
    (qualityTags f).length ≤ qualityTable.length ∧
    parse_quality "Movie.2160p.x265.mkv" = "4K HEVC" ∧
    parse_quality "Hello.txt" = "Unknown" := by
  refine ⟨?_, List.length_filterMap_le _ _, by decide, by decide⟩
  unfold parse_quality
  by_cases h : qualityTags f = []
  · rw [if_pos h]; decide
  · rw [if_neg h]
    exact joinSpace_pos _ h (fun t ht => qualityTags_pos f t ht)

/-- Claim C9: for every playable file, the id the catalog emits for it
(`normalize(title + year)`) is recomputed identically as `file_id` by the
opaque-id branch of `stream`, whose first disjunct `file_id == id` therefore
accepts the file. -/
theorem catalog_id_roundtrip (f : RFile) (hp : f.play_video = true) :
    (catalogEntry f).id = fileIdOf f.name ∧
    opaqueCandidate ((catalogEntry f).id) f = true := by
  refine ⟨rfl, ?_⟩
  show (f.play_video && opaqueCond (fileIdOf f.name) f.name) = true
  unfold opaqueCond
  rw [hp]
  simp

/-- Claim C9 witness: the round trip evaluated at a concrete playable
file. -/
theorem catalog_id_roundtrip_witness :
    (catalogEntry fMatrix).id = fileIdOf fMatrix.name ∧
    opaqueCandidate ((catalogEntry fMatrix).id) fMatrix = true :=
  catalog_id_roundtrip fMatrix rfl

/-- Claim C10: for any type other than `"movie"`, both stream handlers
return an empty stream list with the state untouched — no cache read or
write, no tree walk, no remote or metadata call is recorded. -/
theorem stream_non_movie (env : Env) (type id : String) (s0 : SysState)
    (h : type ≠ "movie") :
    stream env type id s0 = ({ streams := [], error := none }, s0) ∧
    streamApp env type id s0 = ({ streams := [], error := none }, s0) := by
  unfold stream streamApp
  rw [if_neg h, if_neg h]
  exact ⟨rfl, rfl⟩

/-- Claim C10 witness: the short-circuit evaluated at type `"series"`. -/
theorem stream_non_movie_witness :
    stream envT "series" "tt0133093" st0 = ({ streams := [], error := none }, st0) ∧
    streamApp envT "series" "tt0133093" st0 = ({ streams := [], error := none }, st0) :=
  stream_non_movie envT "series" "tt0133093" st0 (by decide)

/-- Claim C3: for type `"movie"`, whenever the body of the resolver raises —
which is how every lower-layer failure (listing, link fetch, metadata
lookup) surfaces, since each propagates through `M` — the handler returns
`{"streams": [], "error": str(e)}`: the stream list is empty and the error
descriptor carries the message, with no exception escaping and no partial
results. -/
theorem stream_error_boundary (env : Env) (id : String) (s0 : SysState)
    (e : String) (s1 : SysState) (h : streamBody env id s0 = Res.err e s1) :
    stream env "movie" id s0 = ({ streams := [], error := some e }, s1) := by
  unfold stream
  rw [if_pos rfl, h]

/-- Claim C3 witness: a failing remote listing during resolution of a movie
id yields exactly the empty-list-plus-error response. -/
theorem stream_error_boundary_witness :
    stream envNoList "movie" "somemovie" st0 =
      ({ streams := [], error := some "remote listing failed" },
       { store := [], log := [Op.kvKeys, Op.listContents] }) :=
  stream_error_boundary envNoList "somemovie" st0 "remote listing failed"
    { store := [], log := [Op.kvKeys, Op.listContents] } (by decide)

/-- Looking a key up right after setting it yields the new record. -/
theorem storeGet_storeSet (st : Store) (k : String) (d : CacheData) :
    storeGet (storeSet st k d) k = some d := by
  unfold storeGet storeSet
  rw [List.find?_append]
  have hnone : (st.filter (fun p => !(p.1 == k))).find? (fun p => p.1 == k) = none := by
    apply List.find?_eq_none.mpr
    intro p hp
    have := (List.mem_filter.mp hp).2
    simp only [Bool.not_eq_true'] at this
    simp [this]
  rw [hnone]
  simp [List.find?]

/-- Running a bound computation: run the first step, then feed its value to
the continuation; an exception short-circuits. -/
theorem M.bind_run {α β : Type} (x : M α) (f : α → M β) (s : SysState) :
    (x >>= f) s = match x s with
      | .ok a s1 => f a s1
      | .err e s1 => .err e s1 := rfl

/-- Running `pure`. -/
theorem M.pure_run {α : Type} (a : α) (s : SysState) : (pure a : M α) s = .ok a s := rfl

/-- The fetch count of a concatenated log. -/
theorem countFetch_append (a b : List Op) :
    countFetch (a ++ b) = countFetch a + countFetch b := by
  unfold countFetch
  rw [List.filter_append, List.length_append]

/-- Claim C6: link resolution through the cache.  If a record `d` is stored
under the file's key, `get_cached_stream_data` returns `d`, leaves the store
unchanged and performs no remote link fetch; if no record is stored, it
performs exactly one remote link fetch, persists the fetched record under
the key, and returns that record, whose `url` is the freshly fetched one. -/
theorem get_cached_stream_data_spec (env : Env) (file : RFile) (s0 : SysState)
    (u : String) (hf : env.fetchFile file.folder_file_id = Except.ok u) :
    (∀ d : CacheData, storeGet s0.store (cacheKeyOf file) = some d →
      get_cached_stream_data env file s0 = Res.ok d (addLog s0 (.kvGet (cacheKeyOf file))) ∧
      (addLog s0 (.kvGet (cacheKeyOf file))).store = s0.store ∧
      countFetch (addLog s0 (.kvGet (cacheKeyOf file))).log = countFetch s0.log) ∧
    (storeGet s0.store (cacheKeyOf file) = none →
      get_cached_stream_data env file s0 =
        Res.ok (cacheRecordOf u file)
          { store := storeSet s0.store (cacheKeyOf file) (cacheRecordOf u file),
            log := s0.log ++ [.kvGet (cacheKeyOf file), .fetchFile file.folder_file_id,
                              .kvSet (cacheKeyOf file)] } ∧
      (cacheRecordOf u file).url = u ∧
      storeGet (storeSet s0.store (cacheKeyOf file) (cacheRecordOf u file)) (cacheKeyOf file) =
        some (cacheRecordOf u file) ∧
      countFetch (s0.log ++ [Op.kvGet (cacheKeyOf file), Op.fetchFile file.folder_file_id,
                             Op.kvSet (cacheKeyOf file)]) = countFetch s0.log + 1) := by
  constructor
  · intro d hd
    refine ⟨?_, rfl, ?_⟩
    · simp only [get_cached_stream_data, M.bind_run, mKvGet, hd, M.pure_run]
      rfl
    · unfold addLog
      rw [countFetch_append]
      rfl
  · intro hn
    refine ⟨?_, rfl, storeGet_storeSet .., ?_⟩
    · simp only [get_cached_stream_data, M.bind_run, mKvGet, hn, mFetch, hf, mKvSet,
        M.pure_run, addLog]
      simp only [List.append_assoc]
      rfl
    · rw [countFetch_append]
      rfl

/-- Claim C6 witness: the miss path at an empty store performs the single
fetch and persists the record; the hit path at a store already holding the
record returns it with the store unchanged and no fetch. -/
theorem get_cached_stream_data_spec_witness :
    (get_cached_stream_data envT fMatrix st0 =
      Res.ok dM { store := [("seedr:stream:11", dM)],
                  log := [Op.kvGet "seedr:stream:11", Op.fetchFile "11",
                          Op.kvSet "seedr:stream:11"] } ∧
     countFetch [Op.kvGet "seedr:stream:11", Op.fetchFile "11", Op.kvSet "seedr:stream:11"] = 1) ∧
    (get_cached_stream_data envT fMatrix stHit =
      Res.ok dM { store := [("seedr:stream:11", dM)], log := [Op.kvGet "seedr:stream:11"] }) :=
  ⟨⟨((get_cached_stream_data_spec envT fMatrix st0 "http://u/11" rfl).2 rfl).1,
    ((get_cached_stream_data_spec envT fMatrix st0 "http://u/11" rfl).2 rfl).2.2.2⟩,
   ((get_cached_stream_data_spec envT fMatrix stHit "http://u/11" rfl).1 dM rfl).1⟩

/-- Two successive deletions-by-predicate collapse into one filter against
membership in the key list. -/
theorem storeDel_filter (k : String) (rest : List String) (st : Store) :
    (st.filter (fun p => !(p.1 == k))).filter (fun p => !(rest.contains p.1)) =
      st.filter (fun p => !((k :: rest).contains p.1)) := by
  rw [List.filter_filter]
  apply List.filter_congr
  intro p _
  show (!(rest.contains p.1) && !(p.1 == k)) = !((k :: rest).contains p.1)
  rw [List.contains_cons, Bool.not_or, Bool.and_comm]

/-- The deletion pass of the reconciler: it returns exactly the stale keys
(those whose embedded id is not live), removes exactly the entries under
those keys from the store, and logs one delete per stale key. -/
theorem syncLoop_run (live : List String) :
    ∀ (keys : List String) (s : SysState),
      syncLoop live keys s =
        Res.ok (keys.filter (fun k => !(live.contains (lastColonSuffix k))))
          { store := s.store.filter
              (fun p => !((keys.filter (fun k => !(live.contains (lastColonSuffix k)))).contains p.1)),
            log := s.log ++ (keys.filter (fun k => !(live.contains (lastColonSuffix k)))).map Op.kvDel } := by
  intro keys
  induction keys with
  | nil =>
    intro s
    show Res.ok [] s = _
    simp
  | cons k ks ih =>
    intro s
    by_cases hc : live.contains (lastColonSuffix k) = true
    · simp only [syncLoop, hc, if_true]
      rw [ih s]
      rw [List.filter_cons_of_neg (by rw [hc]; simp)]
    · have hcf : live.contains (lastColonSuffix k) = false := by
        simpa using hc
      simp only [syncLoop, hcf, Bool.false_eq_true, if_false, M.bind_run, mKvDel, M.pure_run]
      rw [ih { store := storeDel s.store k, log := s.log ++ [Op.kvDel k] }]
      rw [List.filter_cons_of_pos (by rw [hcf]; simp)]
      show Res.ok _ _ = Res.ok _ _
      unfold storeDel
      rw [storeDel_filter]
      simp [List.append_assoc]

/-- Claim C5: `sync_kv_with_seedr` deletes exactly those resolution-cache
keys whose embedded file id is absent from the live `folder_file_id`s of a
fresh walk, and reports the total key count, the deleted keys and the
remaining count (`remaining = total - deleted`). -/
theorem sync_kv_reconciles (env : Env) (files : List RFile) (s0 : SysState)
    (hwalk : env.walkResult = Except.ok files) :
    sync_kv_with_seedr env s0 =
      Res.ok { total_keys := (storeKeys s0.store).length,
               deleted := stale files s0.store,
               remaining := (storeKeys s0.store).length - (stale files s0.store).length }
        { store := s0.store.filter (fun p => !((stale files s0.store).contains p.1)),
          log := s0.log ++ [Op.listContents, Op.kvKeys] ++ (stale files s0.store).map Op.kvDel } := by
  simp only [sync_kv_with_seedr, M.bind_run, mWalk, hwalk, mKvKeys, addLog, M.pure_run]
  rw [syncLoop_run]
  show Res.ok _ _ = Res.ok _ _
  unfold stale
  simp [List.append_assoc]

/-- Claim C5 witness: with live ids `{A, B}` and cache keys `{A, B, C}`
reconciliation deletes exactly the key for `C` and reports 3 total keys, the
single deleted key and 2 remaining. -/
theorem sync_kv_reconciles_witness :
    sync_kv_with_seedr envAB stABC =
      Res.ok { total_keys := 3, deleted := ["seedr:stream:C"], remaining := 2 }
        { store := [("seedr:stream:A", { url := "uA", name := "a", title := "a", year := "", meta_id := "a" }),
                    ("seedr:stream:B", { url := "uB", name := "b", title := "b", year := "", meta_id := "b" })],
          log := [Op.listContents, Op.kvKeys, Op.kvDel "seedr:stream:C"] } := by
  have h := sync_kv_reconciles envAB
    [{ file_id := "1", folder_file_id := "A", name := "fa.mkv", size := 0, play_video := true },
     { file_id := "2", folder_file_id := "B", name := "fb.mkv", size := 0, play_video := true }]
    stABC rfl
  exact h.trans (by decide)

/-- The matching loop of `src/app.py`, when every link fetch succeeds:
it emits exactly one entry per file satisfying `appCandidate`, in walk
order, logs exactly one fetch per candidate, raises nothing and leaves the
store untouched. -/
theorem appLoop_all_ok (env : Env) (nt y : String) (uf : String → String)
    (hf : ∀ x, env.fetchFile x = Except.ok (uf x)) :
    ∀ (files : List RFile) (s : SysState),
      appLoop env nt y files s =
        ((files.filter (appCandidate nt y)).map
           (fun f => { name := "Seedr.cc", title := f.name, url := uf f.folder_file_id,
                       notWebReady := false }),
         { store := s.store,
           log := s.log ++ (files.filter (appCandidate nt y)).map
                            (fun f => Op.fetchFile f.folder_file_id) },
         none) := by
  intro files
  induction files with
  | nil =>
    intro s
    simp [appLoop]
  | cons f fs ih =>
    intro s
    by_cases hp : f.play_video = true
    · by_cases hcond : (containsS (normalize f.name) nt && containsS f.name y) = true
      · have hcand : appCandidate nt y f = true := by
          simp only [appCandidate, hp, Bool.true_and]
          exact hcond
        simp only [appLoop, hp, Bool.not_true, Bool.false_eq_true, if_false, hcond, if_true,
          hf f.folder_file_id]
        rw [ih (addLog s (.fetchFile f.folder_file_id))]
        rw [List.filter_cons_of_pos (by rw [hcand])]
        unfold addLog
        simp [List.append_assoc]
      · have hcand : appCandidate nt y f = false := by
          simp only [appCandidate, hp, Bool.true_and]
          simpa using hcond
        simp only [appLoop, hp, Bool.not_true, Bool.false_eq_true, if_false, hcond]
        rw [ih s]
        rw [List.filter_cons_of_neg (by rw [hcand]; simp)]
    · have hpf : f.play_video = false := by simpa using hp
      have hcand : appCandidate nt y f = false := by
        simp [appCandidate, hpf]
      simp only [appLoop, hpf, Bool.not_false, if_true]
      rw [ih s]
      rw [List.filter_cons_of_neg (by rw [hcand]; simp)]

/-- Claim C2: in the external-id path of `src/app.py` (lines 200-233), when
the metadata lookup yields `(title, year)`, the client is authorized, the
walk yields `files` and every link fetch succeeds, the emitted results are
exactly one entry per file satisfying `appCandidate (normalize title) year`
in walk order; and for a playable file that condition holds precisely when
its normalized name contains the normalized title AND its raw name contains
the literal year string. -/
theorem stream_app_external_candidates (env : Env) (id title year : String)
    (files : List RFile) (uf : String → String) (s0 : SysState)
    (hmeta : env.getMovieTitle id = Except.ok (title, year))
    (hdev : env.hasDeviceCode = true)
    (hwalk : env.walkResult = Except.ok files)
    (hf : ∀ x, env.fetchFile x = Except.ok (uf x)) :
    streamApp env "movie" id s0 =
      ({ streams := (files.filter (appCandidate (normalize title) year)).map
           (fun f => { name := "Seedr.cc", title := f.name, url := uf f.folder_file_id,
                       notWebReady := false }),
         error := none },
       { store := s0.store,
         log := s0.log ++ [Op.metaFetch id, Op.listContents] ++
                (files.filter (appCandidate (normalize title) year)).map
                  (fun f => Op.fetchFile f.folder_file_id) }) ∧
    (∀ f : RFile, f.play_video = true →
      (appCandidate (normalize title) year f = true ↔
        (containsS (normalize f.name) (normalize title) = true ∧
         containsS f.name year = true))) := by
  constructor
  · simp only [streamApp, if_pos rfl, hmeta, hdev, if_true, hwalk]
    rw [appLoop_all_ok env (normalize title) year uf hf files]
    unfold addLog
    simp [List.append_assoc]
  · intro f hp
    simp only [appCandidate, hp, Bool.true_and, Bool.and_eq_true]

/-- Claim C2 witness: against a walk holding a matching playable file, a
non-matching playable file and a matching non-playable file, the handler
emits exactly the matching playable file's entry, and the candidate
condition evaluates as the claim states on each of the three files. -/
theorem stream_app_external_candidates_witness :
    streamApp envT "movie" "tt0133093" st0 =
      ({ streams := [{ name := "Seedr.cc", title := "The.Matrix.1999.1080p.mkv",
                       url := "http://u/11", notWebReady := false }],
         error := none },
       { store := [],
         log := [Op.metaFetch "tt0133093", Op.listContents, Op.fetchFile "11"] }) ∧
    appCandidate (normalize "The Matrix") "1999" fMatrix = true ∧
    appCandidate (normalize "The Matrix") "1999" fOther = false ∧
    appCandidate (normalize "The Matrix") "1999" fClip = false :=
  ⟨((stream_app_external_candidates envT "tt0133093" "The Matrix" "1999"
      [fMatrix, fOther, fClip] (fun x => "http://u/" ++ x) st0
      rfl rfl rfl (fun _ => rfl)).1).trans (by decide),
   by decide, by decide, by decide⟩

end Seedr
